import Mathlib

/-!
Shallow embedding of the doughmination backend core: the user store
(backend/users.py) and the WebSocket connection manager, the fronting
endpoints and the user-management endpoints (backend/main.py).

Conventions of the embedding:
  - the contents of the users.json file is a `List User`; every function
    that in the source reads or writes the file takes the current file
    contents and returns the new file contents explicitly;
  - the configured owner username (environment variable ADMIN_USERNAME,
    read by get_owner_username) is passed as an explicit `owner_username`
    argument;
  - bcrypt hashing and verification, uuid generation and the external
    fronting API (set_front, get_fronters) are nondeterministic or
    external, so they are passed in as explicit arguments;
  - a Python exception is an `Except` error value; an operation that in
    the source may raise and may write returns a pair of its
    result-or-error and the file contents after the call (unchanged when
    the source raised before `save_users`).
-/

/-- Model of the Python `str.lower()` method, applied characterwise to the
character data of the string. -/
def pyLower (s : String) : String := ⟨s.data.map Char.toLower⟩

/-- Modelled from the spec: the persisted User record (class `User` of the
models module, which is not part of the sources); its fields are the ones
used by users.py and main.py and listed in the spec data model. -/
structure User where
  id : String
  username : String
  password_hash : String
  display_name : String
  is_admin : Bool
  is_owner : Bool
  is_pet : Bool
  avatar_url : Option String
deriving DecidableEq, Repr

/-- Modelled from the spec: the `UserCreate` input record (models module,
not part of the sources); fields as used by `create_user`. -/
structure UserCreate where
  username : String
  password : String
  display_name : String
  is_admin : Bool
  is_pet : Bool
deriving DecidableEq, Repr

/-- Modelled from the spec: the `UserUpdate` patch record (models module,
not part of the sources); fields as used by `update_user`, each optional. -/
structure UserUpdate where
  display_name : Option String
  is_admin : Option Bool
  is_pet : Option Bool
  current_password : Option String
  new_password : Option String
  avatar_url : Option String
deriving DecidableEq, Repr

/-- Python truthiness of an optional string: `None` and the empty string
are falsy, every other string is truthy. -/
def truthy (o : Option String) : Bool :=
  match o with
  | none => false
  | some s => !(s == "")

/-- users.py `is_owner_username`: case-insensitive comparison of a
username against the configured owner username. -/
def is_owner_username (owner_username username : String) : Bool :=
  pyLower username == pyLower owner_username

/-- users.py `get_users`: read the stored records; for every record whose
username matches the owner username, force `is_owner` and `is_admin` to
true. (The missing-field migration of the source is invisible here
because every embedded record has all fields.) -/
def get_users (owner_username : String) (store : List User) : List User :=
  store.map (fun u =>
    if is_owner_username owner_username u.username then
      { u with is_owner := true, is_admin := true }
    else u)

/-- users.py `save_users`: before writing, for every record whose username
matches the owner username, set `is_owner := true` and `is_admin := true`;
the result is the new file contents. -/
def save_users (owner_username : String) (users : List User) : List User :=
  users.map (fun u =>
    if is_owner_username owner_username u.username then
      { u with is_owner := true, is_admin := true }
    else u)

/-- users.py `get_user_by_username`: first loaded record whose username
matches case-insensitively. -/
def get_user_by_username (owner_username : String) (store : List User)
    (username : String) : Option User :=
  (get_users owner_username store).find? (fun u => pyLower u.username == pyLower username)

/-- users.py `get_user_by_id`: first loaded record with the given id. -/
def get_user_by_id (owner_username : String) (store : List User)
    (user_id : String) : Option User :=
  (get_users owner_username store).find? (fun u => u.id == user_id)

/-- The Python exception classes raised by the user store: `PermissionError`
and `ValueError`, each carrying its message. -/
inductive UserError where
  | permissionError (msg : String)
  | valueError (msg : String)
deriving DecidableEq, Repr

/-- True exactly when a user-store result is a raised `PermissionError`. -/
def raises_permission_error {α : Type} (r : Except UserError α) : Bool :=
  match r with
  | .error (.permissionError _) => true
  | _ => false

/-- True exactly when a user-store result is a raised error of either
class. -/
def raises_error {α : Type} (r : Except UserError α) : Bool :=
  match r with
  | .error _ => true
  | .ok _ => false

/-- users.py `create_user`: duplicate-username check first, then the
owner-username guard, then flag computation, append and save. `fresh_id`
stands for `str(uuid.uuid4())` and `password_hash` for
`bcrypt.hash(user_create.password)`. Returns the raised error or the
created user, paired with the file contents after the call. -/
def create_user (owner_username : String) (store : List User)
    (user_create : UserCreate) (requesting_user : Option User)
    (fresh_id password_hash : String) : Except UserError User × List User :=
  let users := get_users owner_username store
  if (get_user_by_username owner_username store user_create.username).isSome then
    (.error (.valueError ("Username " ++ user_create.username ++ " already exists")), store)
  else if is_owner_username owner_username user_create.username && requesting_user.isSome then
    (.error (.permissionError
      "Cannot create user with owner username. Owner account must be created via initial setup."),
     store)
  else
    let owner_flag := is_owner_username owner_username user_create.username
    let new_user : User :=
      { id := fresh_id
        username := user_create.username
        password_hash := password_hash
        display_name := user_create.display_name
        is_admin := if owner_flag then true else user_create.is_admin
        is_owner := owner_flag
        is_pet := if owner_flag then false else user_create.is_pet
        avatar_url := none }
    (.ok new_user, save_users owner_username (users ++ [new_user]))

/-- The body of the `if user.id == user_id` branch of users.py
`update_user`: the permission checks, the password verification and the
construction of the updated record for one matched user. `verify` stands
for `bcrypt.verify` and `new_hash` for `bcrypt.hash(user_update.new_password)`. -/
def update_user_entry (owner_username : String) (user_update : UserUpdate)
    (requesting_user : Option User) (verify : String → String → Bool)
    (new_hash : String) (u : User) : Except UserError User :=
  if u.is_owner && (user_update.is_admin == some false) then
    .error (.permissionError "Cannot remove admin privileges from owner")
  else if (match requesting_user with
    | some r => u.is_admin && !(r.id == u.id) && !r.is_owner
    | none => false) then
    .error (.permissionError "Only the owner can modify admin accounts")
  else
    let hash_step : Except UserError String :=
      if truthy user_update.current_password && truthy user_update.new_password then
        if !(verify (user_update.current_password.getD "") u.password_hash) then
          .error (.valueError "Current password is incorrect")
        else .ok new_hash
      else .ok u.password_hash
    match hash_step with
    | .error e => .error e
    | .ok password_hash =>
      let new_is_owner := is_owner_username owner_username u.username
      let new_is_admin :=
        if new_is_owner then true else user_update.is_admin.getD u.is_admin
      let new_is_pet := user_update.is_pet.getD u.is_pet
      .ok { id := u.id
            username := u.username
            password_hash := password_hash
            display_name := user_update.display_name.getD u.display_name
            is_admin := new_is_admin
            is_owner := new_is_owner
            is_pet := new_is_pet
            avatar_url :=
              match user_update.avatar_url with
              | some a => some a
              | none => u.avatar_url }

/-- The `for i, user in enumerate(users)` loop of users.py `update_user`:
the first record with the given id is replaced by its updated version (or
its raised error propagates); when no record matches, the loop falls
through and the function returns `None`. -/
def update_user_go (owner_username user_id : String) (user_update : UserUpdate)
    (requesting_user : Option User) (verify : String → String → Bool)
    (new_hash : String) : List User → Except UserError (Option (User × List User))
  | [] => .ok none
  | u :: rest =>
    if u.id == user_id then
      match update_user_entry owner_username user_update requesting_user verify new_hash u with
      | .error e => .error e
      | .ok updated => .ok (some (updated, updated :: rest))
    else
      match update_user_go owner_username user_id user_update requesting_user verify new_hash rest with
      | .error e => .error e
      | .ok none => .ok none
      | .ok (some (updated, rest2)) => .ok (some (updated, u :: rest2))

/-- users.py `update_user`: load, update the first record with the given
id, save on success; the file is unchanged when the loop raised or when no
record matched. -/
def update_user (owner_username : String) (store : List User) (user_id : String)
    (user_update : UserUpdate) (requesting_user : Option User)
    (verify : String → String → Bool) (new_hash : String) :
    Except UserError (Option User) × List User :=
  let users := get_users owner_username store
  match update_user_go owner_username user_id user_update requesting_user verify new_hash users with
  | .error e => (.error e, store)
  | .ok none => (.ok none, store)
  | .ok (some (updated, users2)) => (.ok (some updated), save_users owner_username users2)

/-- users.py `delete_user`: find the record, owner guard, admin guard,
then filter it out and save. Returns `false` (with the file unchanged)
when no record has the given id. -/
def delete_user (owner_username : String) (store : List User) (user_id : String)
    (requesting_user : Option User) : Except UserError Bool × List User :=
  let users := get_users owner_username store
  match users.find? (fun u => u.id == user_id) with
  | none => (.ok false, store)
  | some user_to_delete =>
    if user_to_delete.is_owner then
      (.error (.permissionError "Cannot delete the owner account"), store)
    else if (match requesting_user with
      | some r => user_to_delete.is_admin && !r.is_owner
      | none => false) then
      (.error (.permissionError "Only the owner can delete admin accounts"), store)
    else
      let users2 := users.filter (fun u => !(u.id == user_id))
      if users2.length < users.length then
        (.ok true, save_users owner_username users2)
      else
        (.ok false, store)

/-- Outcome of a FastAPI endpoint call: a returned value, an
`HTTPException` with its status code and detail, or an exception that the
endpoint does not catch and lets propagate. -/
inductive HttpOutcome (α : Type) where
  | ok (value : α)
  | httpError (status_code : Nat) (detail : String)
  | uncaught (e : UserError)
deriving DecidableEq, Repr

/-- True exactly when an endpoint returned normally. -/
def HttpOutcome.isOk {α : Type} : HttpOutcome α → Bool
  | .ok _ => true
  | _ => false

/-- Modelled from the spec: the `UserResponse` output record (models
module, not part of the sources); fields as used by the endpoints. -/
structure UserResponse where
  id : String
  username : String
  display_name : String
  is_admin : Bool
  avatar_url : Option String
deriving DecidableEq, Repr

/-- main.py `add_user` (POST /api/users): admin guard, then
`create_user(user_create)` with NO requesting user; `ValueError` is mapped
to 400, any other exception to 500. -/
def add_user (owner_username : String) (store : List User)
    (user_create : UserCreate) (current_user : User)
    (fresh_id password_hash : String) : HttpOutcome UserResponse × List User :=
  if !current_user.is_admin then
    (.httpError 403 "Admin privileges required", store)
  else
    match create_user owner_username store user_create none fresh_id password_hash with
    | (.ok nu, s) =>
      (.ok { id := nu.id
             username := nu.username
             display_name := nu.display_name
             is_admin := nu.is_admin
             avatar_url := nu.avatar_url }, s)
    | (.error (.valueError m), s) => (.httpError 400 m, s)
    | (.error (.permissionError m), s) =>
      (.httpError 500 ("Failed to create user: " ++ m), s)

/-- main.py `remove_user` (DELETE /api/users/user_id): admin guard and
self-deletion guard, then `delete_user(user_id)` with NO requesting user;
a raised `PermissionError` is not caught by this endpoint. -/
def remove_user (owner_username : String) (store : List User)
    (user_id : String) (current_user : User) : HttpOutcome String × List User :=
  if !current_user.is_admin then
    (.httpError 403 "Admin privileges required", store)
  else if user_id == current_user.id then
    (.httpError 400 "Cannot delete your own account", store)
  else
    match delete_user owner_username store user_id none with
    | (.ok true, s) => (.ok "User deleted successfully", s)
    | (.ok false, s) => (.httpError 404 "User not found", s)
    | (.error e, s) => (.uncaught e, s)

/-- main.py `ConnectionManager`: the per-group sets of live connections.
Connections are abstract handles (here `Nat`); a Python set is a list
without duplicates. The weak-reference leak guard of the source has no
observable behaviour and is not modelled. -/
structure ConnectionManager where
  active_connections : List (String × List Nat)
deriving DecidableEq, Repr

/-- Membership list of a group: `active_connections[group]` when the
group exists. -/
def ConnectionManager.lookup_group (m : ConnectionManager) (group : String) :
    Option (List Nat) :=
  (m.active_connections.find? (fun p => p.1 == group)).map (fun p => p.2)

/-- main.py `ConnectionManager.disconnect`: discard the connection from
the set of every group (the `group` argument of the source is ignored by
its body). -/
def ConnectionManager.disconnect (m : ConnectionManager) (websocket : Nat) :
    ConnectionManager :=
  ⟨m.active_connections.map (fun p => (p.1, p.2.filter (fun c => !(c == websocket))))⟩

/-- main.py `ConnectionManager.broadcast`: unknown group is a warned
no-op; otherwise iterate over a snapshot of the group, send to each
connection — `send_ok c = false` models `send_text` raising
(`WebSocketDisconnect`, `RuntimeError` or any other exception; every
`except` arm of the source adds the connection to `disconnected` and
continues) — then remove each failed connection via `disconnect`. Returns
the manager after pruning and the list of connections that received the
message; the function is total, so no exception reaches the caller. -/
def ConnectionManager.broadcast (m : ConnectionManager) (send_ok : Nat → Bool)
    (group : String) : ConnectionManager × List Nat :=
  match m.lookup_group group with
  | none => (m, [])
  | some connections =>
    let delivered := connections.filter send_ok
    let disconnected := connections.filter (fun c => !(send_ok c))
    (disconnected.foldl (fun acc c => acc.disconnect c) m, delivered)

/-- A broadcast event handed to the "all" group: its type tag, its
payload (serialized) and the target group. -/
structure BroadcastEvent where
  type : String
  payload : String
  group : String
deriving DecidableEq, Repr

/-- Modelled from the spec: `broadcast_fronting_update` (called by
main.py at the fronting endpoints but not defined in the sources) wraps
the freshly fetched fronters payload in a single broadcast event with
type tag `fronting_update` and delegates it to the "all" group. -/
def broadcast_fronting_update (fronters_data : String) : List BroadcastEvent :=
  [{ type := "fronting_update", payload := fronters_data, group := "all" }]

/-- The `members` field of the request body of POST /api/switch: absent,
a list of member ids, or a non-list value. -/
inductive MembersField where
  | absent
  | idList (ids : List String)
  | notAList
deriving DecidableEq, Repr

/-- main.py `switch_front` (POST /api/switch): read `members` from the
body (default empty list), reject a non-list value (the 400 raised inside
the `try` is caught by `except Exception` and re-raised as 500), call the
external `set_front`, re-fetch the fronters with the external
`get_fronters`, broadcast them, return success. Every raised exception
yields a 500 and no broadcast. The second component is the list of
broadcast events emitted during the call. -/
def switch_front (body : MembersField)
    (set_front : List String → Except String Unit)
    (get_fronters : Except String String) :
    HttpOutcome String × List BroadcastEvent :=
  match body with
  | .notAList => (.httpError 500 "members must be a list of member IDs", [])
  | _ =>
    let member_ids := match body with | .idList ids => ids | _ => []
    match set_front member_ids with
    | .error e => (.httpError 500 e, [])
    | .ok _ =>
      match get_fronters with
      | .error e => (.httpError 500 e, [])
      | .ok fronters_data =>
        (.ok "Front updated successfully", broadcast_fronting_update fronters_data)

/-- main.py `switch_single_front` (POST /api/switch_front): read
`member_id` from the body, reject a falsy value with 400 (re-raised
unchanged through the `except HTTPException` arm), call the external
`set_front` on the singleton list, re-fetch the fronters, broadcast them
(the `if result or True` of the source always broadcasts after a
successful switch), return success. Every other exception yields a 500
and no broadcast. -/
def switch_single_front (member_id : Option String)
    (set_front : List String → Except String Unit)
    (get_fronters : Except String String) :
    HttpOutcome String × List BroadcastEvent :=
  if !(truthy member_id) then
    (.httpError 400 "member_id is required", [])
  else
    match set_front [member_id.getD ""] with
    | .error e => (.httpError 500 ("Failed to switch front: " ++ e), [])
    | .ok _ =>
      match get_fronters with
      | .error e => (.httpError 500 ("Failed to switch front: " ++ e), [])
      | .ok fronters_data =>
        (.ok "Front updated", broadcast_fronting_update fronters_data)

/-! Helper lemmas shared by the claim theorems. -/

/-- The owner-forcing step applied by `get_users` and `save_users` to each
record. -/
def force_owner (owner_username : String) (u : User) : User :=
  if is_owner_username owner_username u.username then
    { u with is_owner := true, is_admin := true }
  else u

theorem get_users_eq_map (owner_username : String) (store : List User) :
    get_users owner_username store = store.map (force_owner owner_username) := rfl

theorem save_users_eq_map (owner_username : String) (users : List User) :
    save_users owner_username users = users.map (force_owner owner_username) := rfl

theorem force_owner_id (owner_username : String) (u : User) :
    (force_owner owner_username u).id = u.id := by
  unfold force_owner
  by_cases h : is_owner_username owner_username u.username = true
  · rw [if_pos h]
  · rw [if_neg h]

theorem force_owner_username (owner_username : String) (u : User) :
    (force_owner owner_username u).username = u.username := by
  unfold force_owner
  by_cases h : is_owner_username owner_username u.username = true
  · rw [if_pos h]
  · rw [if_neg h]

theorem force_owner_of_nonowner (owner_username : String) (u : User)
    (h : is_owner_username owner_username u.username = false) :
    force_owner owner_username u = u := by
  unfold force_owner
  rw [if_neg (by simp [h])]

/-- Every record written by `save_users` whose username matches the owner
has both owner flags set. -/
theorem save_users_forces_owner (owner_username : String) (users : List User) :
    ∀ u ∈ save_users owner_username users,
      is_owner_username owner_username u.username = true →
      u.is_owner = true ∧ u.is_admin = true := by
  intro u hu how
  rw [save_users_eq_map] at hu
  simp only [List.mem_map] at hu
  obtain ⟨v, hv, rfl⟩ := hu
  rw [force_owner_username] at how
  unfold force_owner
  rw [if_pos (by simp [how])]
  exact ⟨rfl, rfl⟩

/-- A record whose username does not match the owner passes through
`save_users` unchanged. -/
theorem save_users_keeps_nonowner (owner_username : String) (users : List User) :
    ∀ u ∈ users, is_owner_username owner_username u.username = false →
      u ∈ save_users owner_username users := by
  intro u hu how
  rw [save_users_eq_map]
  simp only [List.mem_map]
  exact ⟨u, hu, force_owner_of_nonowner owner_username u how⟩

/-- `get_users` locates records by id exactly where the raw store does,
returning the owner-forced image of the stored record. -/
theorem get_users_find?_id (owner_username : String) (store : List User)
    (user_id : String) :
    (get_users owner_username store).find? (fun v => v.id == user_id)
      = (store.find? (fun v => v.id == user_id)).map (force_owner owner_username) := by
  rw [get_users_eq_map, List.find?_map]
  have hp : ((fun v => v.id == user_id) ∘ force_owner owner_username)
      = (fun v : User => v.id == user_id) := by
    funext v
    simp [Function.comp, force_owner_id]
  rw [hp]

/-- The `update_user` loop succeeds with an updated record only when
`update_user_entry` produced that record for some matched user. -/
theorem update_user_go_ok_some (owner_username user_id : String)
    (user_update : UserUpdate) (req : Option User)
    (verify : String → String → Bool) (nh : String) :
    ∀ (l : List User) (upd : User) (l2 : List User),
      update_user_go owner_username user_id user_update req verify nh l
        = .ok (some (upd, l2)) →
      ∃ u, update_user_entry owner_username user_update req verify nh u = .ok upd := by
  intro l
  induction l with
  | nil =>
    intro upd l2 h
    simp [update_user_go] at h
  | cons x xs ih =>
    intro upd l2 h
    simp only [update_user_go] at h
    split at h
    · split at h
      · exact absurd h (by simp)
      · rename_i heq
        simp only [Except.ok.injEq, Option.some.injEq, Prod.mk.injEq] at h
        obtain ⟨⟨rfl, -⟩⟩ := h
        exact ⟨x, heq⟩
    · split at h
      · exact absurd h (by simp)
      · exact absurd h (by simp)
      · rename_i updated rest2 heq
        simp only [Except.ok.injEq, Option.some.injEq, Prod.mk.injEq] at h
        obtain ⟨⟨rfl, -⟩⟩ := h
        exact ih upd rest2 heq

/-- When the first record with the given id is rejected by
`update_user_entry`, the whole loop raises that error. -/
theorem update_user_go_first_match_error (owner_username user_id : String)
    (user_update : UserUpdate) (req : Option User)
    (verify : String → String → Bool) (nh : String) (e : UserError) :
    ∀ (l : List User) (u : User),
      l.find? (fun v => v.id == user_id) = some u →
      update_user_entry owner_username user_update req verify nh u = .error e →
      update_user_go owner_username user_id user_update req verify nh l = .error e := by
  intro l
  induction l with
  | nil =>
    intro u h _
    simp at h
  | cons x xs ih =>
    intro u hfind hentry
    by_cases hx : (x.id == user_id) = true
    · rw [List.find?_cons_of_pos (p := fun v : User => v.id == user_id) _ hx] at hfind
      injection hfind with h
      subst h
      simp [update_user_go, hx, hentry]
    · rw [List.find?_cons_of_neg (p := fun v : User => v.id == user_id) _ (by simp [hx])] at hfind
      have hrec := ih u hfind hentry
      simp [update_user_go, hx, hrec]

/-- Concrete records used by the witnesses and counterexamples. -/
def adminRec : User :=
  { id := "1", username := "admin", password_hash := "h1", display_name := "Admin",
    is_admin := true, is_owner := true, is_pet := false, avatar_url := none }

def rawOwnerMixed : User :=
  { id := "1", username := "Admin", password_hash := "h1", display_name := "Admin",
    is_admin := false, is_owner := false, is_pet := false, avatar_url := none }

def forcedOwnerMixed : User :=
  { rawOwnerMixed with is_owner := true, is_admin := true }

def bobCorrupt : User :=
  { id := "2", username := "bob", password_hash := "h2", display_name := "Bob",
    is_admin := true, is_owner := true, is_pet := false, avatar_url := none }

def stealthOwner : User :=
  { id := "1", username := "admin", password_hash := "h1", display_name := "Admin",
    is_admin := true, is_owner := false, is_pet := false, avatar_url := none }

def actorRec : User :=
  { id := "9", username := "carol", password_hash := "h9", display_name := "Carol",
    is_admin := true, is_owner := false, is_pet := false, avatar_url := none }

def bobbyAdmin : User :=
  { id := "3", username := "bobby", password_hash := "h3", display_name := "Bobby",
    is_admin := true, is_owner := false, is_pet := false, avatar_url := none }

def ucUpper : UserCreate :=
  { username := "ADMIN", password := "pw", display_name := "Second Admin",
    is_admin := false, is_pet := false }

def patchRevoke : UserUpdate :=
  { display_name := none, is_admin := some false, is_pet := none,
    current_password := none, new_password := none, avatar_url := none }

/-- C2: for every username equal, case-insensitively, to the configured
owner username, every record persisted by any create, update, or save
operation has `is_owner = true` and `is_admin = true`, regardless of the
flags supplied in the input. -/
theorem owner_username_persisted_with_owner_flags (owner_username : String) :
    (∀ users, ∀ u ∈ save_users owner_username users,
        is_owner_username owner_username u.username = true →
        u.is_owner = true ∧ u.is_admin = true) ∧
    (∀ store uc req fid ph nu s,
        create_user owner_username store uc req fid ph = (.ok nu, s) →
        ∀ u ∈ s, is_owner_username owner_username u.username = true →
          u.is_owner = true ∧ u.is_admin = true) ∧
    (∀ store uid uu req verify nh upd s,
        update_user owner_username store uid uu req verify nh = (.ok (some upd), s) →
        ∀ u ∈ s, is_owner_username owner_username u.username = true →
          u.is_owner = true ∧ u.is_admin = true) := by
  refine ⟨save_users_forces_owner owner_username, ?_, ?_⟩
  · intro store uc req fid ph nu s hcr
    simp only [create_user] at hcr
    split at hcr
    · exact absurd hcr (by simp)
    · split at hcr
      · exact absurd hcr (by simp)
      · simp only [Prod.mk.injEq] at hcr
        obtain ⟨-, rfl⟩ := hcr
        exact save_users_forces_owner owner_username _
  · intro store uid uu req verify nh upd s hup
    simp only [update_user] at hup
    split at hup
    · exact absurd hup (by simp)
    · exact absurd hup (by simp)
    · simp only [Prod.mk.injEq] at hup
      obtain ⟨-, rfl⟩ := hup
      exact save_users_forces_owner owner_username _

theorem owner_username_persisted_with_owner_flags_witness :
    forcedOwnerMixed ∈ save_users "admin" [rawOwnerMixed] ∧
    forcedOwnerMixed.is_owner = true ∧ forcedOwnerMixed.is_admin = true := by
  refine ⟨by decide, ?_⟩
  exact (owner_username_persisted_with_owner_flags "admin").1 [rawOwnerMixed]
    forcedOwnerMixed (by decide) (by decide)

/-- C3 counterexample: `save_users` does not clear a spurious
`is_owner = true` on a record whose username does not match the owner:
the corrupted record is written back unchanged, so it does not self-heal. -/
theorem save_users_no_self_heal_cex :
    save_users "admin" [bobCorrupt] = [bobCorrupt] ∧
    bobCorrupt.is_owner = true ∧
    is_owner_username "admin" bobCorrupt.username = false :=
  ⟨rfl, rfl, rfl⟩

/-- C3 (amended): every persisted write re-asserts the positive owner
invariant — records whose username matches the owner are written with
both flags true — but records with a non-matching username are written
unchanged, so a corrupted `is_owner = true` on a non-owner username is
preserved by save rather than healed; create and update themselves never
grant `is_owner` to a record whose username does not match the owner. -/
theorem save_users_owner_forcing_amended (owner_username : String) :
    (∀ users, ∀ u ∈ save_users owner_username users,
        is_owner_username owner_username u.username = true →
        u.is_owner = true ∧ u.is_admin = true) ∧
    (∀ users, ∀ u ∈ users, is_owner_username owner_username u.username = false →
        u ∈ save_users owner_username users) ∧
    (∀ store uc req fid ph nu s,
        create_user owner_username store uc req fid ph = (.ok nu, s) →
        nu.is_owner = is_owner_username owner_username nu.username) ∧
    (∀ store uid uu req verify nh upd s,
        update_user owner_username store uid uu req verify nh = (.ok (some upd), s) →
        upd.is_owner = is_owner_username owner_username upd.username) := by
  refine ⟨save_users_forces_owner owner_username,
          save_users_keeps_nonowner owner_username, ?_, ?_⟩
  · intro store uc req fid ph nu s hcr
    simp only [create_user] at hcr
    split at hcr
    · exact absurd hcr (by simp)
    · split at hcr
      · exact absurd hcr (by simp)
      · simp only [Prod.mk.injEq, Except.ok.injEq] at hcr
        obtain ⟨rfl, -⟩ := hcr
        rfl
  · intro store uid uu req verify nh upd s hup
    simp only [update_user] at hup
    split at hup
    · exact absurd hup (by simp)
    · exact absurd hup (by simp)
    · rename_i updated users2 heq
      simp only [Prod.mk.injEq, Except.ok.injEq, Option.some.injEq] at hup
      obtain ⟨h1, -⟩ := hup
      subst h1
      obtain ⟨u, hu⟩ := update_user_go_ok_some owner_username uid uu req verify nh
        (get_users owner_username store) _ users2 heq
      simp only [update_user_entry] at hu
      split at hu
      · exact absurd hu (by simp)
      · split at hu
        · exact absurd hu (by simp)
        · split at hu
          · exact absurd hu (by simp)
          · simp only [Except.ok.injEq] at hu
            subst hu
            rfl

theorem save_users_owner_forcing_amended_witness :
    bobCorrupt ∈ save_users "admin" [bobCorrupt] ∧
    forcedOwnerMixed.is_owner = true ∧ forcedOwnerMixed.is_admin = true := by
  refine ⟨?_, ?_⟩
  · exact (save_users_owner_forcing_amended "admin").2.1 [bobCorrupt] bobCorrupt
      (by decide) (by decide)
  · exact (save_users_owner_forcing_amended "admin").1 [rawOwnerMixed] forcedOwnerMixed
      (by decide) (by decide)

/-- C7: creating a user whose username already exists in the store under
case-insensitive comparison always fails with the duplicate-username
error (the ConflictError of the spec taxonomy, raised as `ValueError` by
the source) and leaves the stored record set unchanged. -/
theorem create_user_duplicate_rejected (owner_username : String)
    (store : List User) (uc : UserCreate) (req : Option User)
    (fid ph : String)
    (hdup : (get_user_by_username owner_username store uc.username).isSome = true) :
    create_user owner_username store uc req fid ph
      = (.error (.valueError ("Username " ++ uc.username ++ " already exists")), store) := by
  simp [create_user, hdup]

theorem create_user_duplicate_rejected_witness :
    create_user "admin" [adminRec] ucUpper none "id2" "h2"
      = (.error (.valueError "Username ADMIN already exists"), [adminRec]) := by
  have h := create_user_duplicate_rejected "admin" [adminRec] ucUpper none "id2" "h2"
    (by decide)
  exact h

/-- C5: deleting the record whose loaded `is_owner` is true always fails
with a permission error, for every requesting actor and with none, and
the stored record set is unchanged. -/
theorem delete_user_owner_denied (owner_username : String) (store : List User)
    (user_id : String) (requesting_user : Option User) (u : User)
    (hfind : (get_users owner_username store).find? (fun v => v.id == user_id) = some u)
    (howner : u.is_owner = true) :
    delete_user owner_username store user_id requesting_user
      = (.error (.permissionError "Cannot delete the owner account"), store) := by
  simp [delete_user, hfind, howner]

theorem delete_user_owner_denied_witness :
    delete_user "admin" [adminRec, bobbyAdmin] "1" (some actorRec)
      = (.error (.permissionError "Cannot delete the owner account"),
         [adminRec, bobbyAdmin]) := by
  have h := delete_user_owner_denied "admin" [adminRec, bobbyAdmin] "1"
    (some actorRec) adminRec (by decide) (by decide)
  exact h

/-- C4: an update whose patch sets `is_admin = false` on a record whose
loaded `is_owner` is true always raises a permission error and leaves the
stored record set unchanged. -/
theorem update_user_owner_admin_revoke_denied (owner_username : String)
    (store : List User) (user_id : String) (user_update : UserUpdate)
    (req : Option User) (verify : String → String → Bool) (nh : String) (u : User)
    (hfind : (get_users owner_username store).find? (fun v => v.id == user_id) = some u)
    (howner : u.is_owner = true)
    (hpatch : user_update.is_admin = some false) :
    update_user owner_username store user_id user_update req verify nh
      = (.error (.permissionError "Cannot remove admin privileges from owner"), store) := by
  have hentry : update_user_entry owner_username user_update req verify nh u
      = .error (.permissionError "Cannot remove admin privileges from owner") := by
    simp [update_user_entry, howner, hpatch]
  have hgo := update_user_go_first_match_error owner_username user_id user_update
    req verify nh _ (get_users owner_username store) u hfind hentry
  simp [update_user, hgo]

theorem update_user_owner_admin_revoke_denied_witness :
    update_user "admin" [adminRec, bobbyAdmin] "1" patchRevoke none
      (fun _ _ => true) "nh"
      = (.error (.permissionError "Cannot remove admin privileges from owner"),
         [adminRec, bobbyAdmin]) := by
  have h := update_user_owner_admin_revoke_denied "admin" [adminRec, bobbyAdmin] "1"
    patchRevoke none (fun _ _ => true) "nh" adminRec (by decide) (by decide) (by decide)
  exact h

/-- C6 counterexample: once the owner record exists (the normal state
after bootstrap), an authenticated request to create the owner username
is rejected by the duplicate-username check first — a `ValueError`, not a
PermissionError-class failure. -/
theorem create_owner_username_authenticated_cex :
    is_owner_username "admin" ucUpper.username = true ∧
    create_user "admin" [adminRec] ucUpper (some actorRec) "id2" "h2"
      = (.error (.valueError "Username ADMIN already exists"), [adminRec]) ∧
    raises_permission_error
      (create_user "admin" [adminRec] ucUpper (some actorRec) "id2" "h2").1 = false :=
  ⟨rfl, rfl, rfl⟩

/-- C6 (amended): creating a record whose username equals the configured
owner username succeeds only during bootstrap (no actor context); every
authenticated creation request for that username fails and leaves the
store unchanged — with a `PermissionError` when the username is not
already taken, but with the duplicate-username `ValueError` when a record
with that username already exists. -/
theorem create_owner_username_policy_amended (owner_username : String)
    (store : List User) (uc : UserCreate) (req : Option User) (fid ph : String)
    (howner : is_owner_username owner_username uc.username = true) :
    (∀ nu s, create_user owner_username store uc req fid ph = (.ok nu, s) →
       req = none) ∧
    (req.isSome = true →
       raises_error (create_user owner_username store uc req fid ph).1 = true ∧
       (create_user owner_username store uc req fid ph).2 = store) ∧
    (req.isSome = true →
       get_user_by_username owner_username store uc.username = none →
       raises_permission_error
         (create_user owner_username store uc req fid ph).1 = true) := by
  by_cases hdup : (get_user_by_username owner_username store uc.username).isSome = true
  · refine ⟨?_, ?_, ?_⟩
    · intro nu s h
      rw [create_user] at h
      simp only [hdup, if_true] at h
      exact absurd h (by simp)
    · intro _
      rw [create_user]
      simp [hdup, raises_error]
    · intro _ hnone
      rw [hnone] at hdup
      simp at hdup
  · have hdup2 : (get_user_by_username owner_username store uc.username).isSome = false := by
      simp at hdup
      simp [hdup]
    refine ⟨?_, ?_, ?_⟩
    · intro nu s h
      cases req with
      | none => rfl
      | some r =>
        rw [create_user] at h
        simp only [hdup2, howner, Option.isSome_some, Bool.and_true] at h
        exact absurd h (by simp)
    · intro hreq
      rw [create_user]
      simp [hdup2, howner, hreq, raises_error]
    · intro hreq _
      rw [create_user]
      simp [hdup2, howner, hreq, raises_permission_error]

theorem create_owner_username_policy_amended_witness :
    raises_permission_error
      (create_user "admin" [bobbyAdmin] ucUpper (some actorRec) "id2" "h2").1 = true ∧
    (create_user "admin" [bobbyAdmin] ucUpper (some actorRec) "id2" "h2").2
      = [bobbyAdmin] := by
  have h := create_owner_username_policy_amended "admin" [bobbyAdmin] ucUpper
    (some actorRec) "id2" "h2" (by decide)
  exact ⟨h.2.2 rfl (by decide), (h.2.1 rfl).2⟩

/-- With no requesting user, `delete_user` on a stored admin record whose
username does not match the owner (and whose stored `is_owner` is false)
removes the record and reports success. -/
theorem delete_user_no_actor_removes_nonowner_admin (owner_username : String)
    (store : List User) (user_id : String) (u : User)
    (hfind : store.find? (fun v => v.id == user_id) = some u)
    (howner : u.is_owner = false)
    (hname : is_owner_username owner_username u.username = false) :
    delete_user owner_username store user_id none
      = (.ok true,
         save_users owner_username
           ((get_users owner_username store).filter (fun v => !(v.id == user_id)))) := by
  have hfind2 : (get_users owner_username store).find? (fun v => v.id == user_id)
      = some u := by
    rw [get_users_find?_id, hfind]
    simp [force_owner_of_nonowner owner_username u hname]
  have hmem := List.mem_of_find?_eq_some hfind2
  have hid := List.find?_some hfind2
  have hlen : ((get_users owner_username store).filter
      (fun v => !(v.id == user_id))).length < (get_users owner_username store).length :=
    List.length_filter_lt_length_iff_exists.mpr ⟨u, hmem, by simp_all⟩
  simp [delete_user, hfind2, howner, hlen]

/-- C10 counterexample: a stored record with `is_admin = true` and
`is_owner = false` whose username happens to be the owner username is
re-derived as the owner on load, so `delete_user(id, None)` raises a
permission error instead of removing it. -/
theorem delete_user_no_actor_cex :
    stealthOwner.is_admin = true ∧ stealthOwner.is_owner = false ∧
    delete_user "admin" [stealthOwner] "1" none
      = (.error (.permissionError "Cannot delete the owner account"),
         [stealthOwner]) :=
  ⟨rfl, rfl, rfl⟩

/-- C10 (amended): with no requesting actor the actor-based permission
rules are not evaluated — for every stored record with `is_admin = true`,
`is_owner = false` and a username that does not match the configured
owner username, `delete_user(id, None)` removes the record and returns
true without a permission error — and the HTTP endpoints invoke
`delete_user` and `create_user` without passing the authenticated actor:
their outcome does not depend on which admin actor makes the request, and
a non-owner admin can delete another admin. -/
theorem delete_user_no_actor_amended (owner_username : String)
    (store : List User) (user_id : String) :
    (∀ u, store.find? (fun v => v.id == user_id) = some u →
       u.is_admin = true → u.is_owner = false →
       is_owner_username owner_username u.username = false →
       delete_user owner_username store user_id none
         = (.ok true,
            save_users owner_username
              ((get_users owner_username store).filter
                (fun v => !(v.id == user_id))))) ∧
    (∀ u c, store.find? (fun v => v.id == user_id) = some u →
       u.is_admin = true → u.is_owner = false →
       is_owner_username owner_username u.username = false →
       c.is_admin = true → (user_id == c.id) = false → c.is_owner = false →
       remove_user owner_username store user_id c
         = (.ok "User deleted successfully",
            save_users owner_username
              ((get_users owner_username store).filter
                (fun v => !(v.id == user_id))))) ∧
    (∀ c1 c2, c1.is_admin = true → c2.is_admin = true →
       (user_id == c1.id) = false → (user_id == c2.id) = false →
       remove_user owner_username store user_id c1
         = remove_user owner_username store user_id c2) ∧
    (∀ uc c1 c2 fid ph, c1.is_admin = true → c2.is_admin = true →
       add_user owner_username store uc c1 fid ph
         = add_user owner_username store uc c2 fid ph) := by
  refine ⟨?_, ?_, ?_, ?_⟩
  · intro u hfind hadm howner hname
    exact delete_user_no_actor_removes_nonowner_admin owner_username store user_id u
      hfind howner hname
  · intro u c hfind hadm howner hname hcadm hcid hcowner
    have hdel := delete_user_no_actor_removes_nonowner_admin owner_username store
      user_id u hfind howner hname
    simp [remove_user, hcadm, hcid, hdel]
  · intro c1 c2 h1 h2 h3 h4
    simp [remove_user, h1, h2, h3, h4]
  · intro uc c1 c2 fid ph h1 h2
    simp [add_user, h1, h2]

theorem delete_user_no_actor_amended_witness :
    delete_user "admin" [adminRec, bobbyAdmin] "3" none = (.ok true, [adminRec]) ∧
    remove_user "admin" [adminRec, bobbyAdmin] "3" actorRec
      = (.ok "User deleted successfully", [adminRec]) := by
  have h := delete_user_no_actor_amended "admin" [adminRec, bobbyAdmin] "3"
  have h1 := h.1 bobbyAdmin (by decide) (by decide) (by decide) (by decide)
  have h2 := h.2.1 bobbyAdmin actorRec (by decide) (by decide) (by decide) (by decide)
    (by decide) (by decide) (by decide)
  exact ⟨h1.trans rfl, h2.trans rfl⟩

/-- In a duplicate-free list containing `c`, filtering for the elements
equal to `c` yields exactly `[c]`. -/
theorem nodup_filter_eq_single (c : Nat) :
    ∀ l : List Nat, l.Nodup → c ∈ l → l.filter (fun d => d == c) = [c] := by
  intro l
  induction l with
  | nil =>
    intro _ hc
    simp at hc
  | cons x xs ih =>
    intro hnd hc
    rw [List.nodup_cons] at hnd
    rcases List.mem_cons.mp hc with h | h
    · subst h
      rw [List.filter_cons_of_pos (by simp)]
      have hempty : xs.filter (fun d => d == c) = [] := by
        rw [List.filter_eq_nil_iff]
        intro d hd
        simp only [beq_iff_eq]
        intro hdc
        exact hnd.1 (hdc ▸ hd)
      rw [hempty]
    · have hxc : ¬(x = c) := by
        intro hxc
        exact hnd.1 (hxc ▸ h)
      rw [List.filter_cons_of_neg (by simp [hxc])]
      exact ih hnd.2 h

/-- C8: broadcasting to a group in which exactly one connection fails
delivers the message to every other member, removes the failing
connection from every group via `disconnect`, and returns normally. -/
theorem broadcast_prunes_failing_connection (m : ConnectionManager)
    (group : String) (connections : List Nat) (send_ok : Nat → Bool) (c : Nat)
    (hg : m.lookup_group group = some connections)
    (hnd : connections.Nodup) (hc : c ∈ connections)
    (hfail : send_ok c = false)
    (hok : ∀ d ∈ connections, d ≠ c → send_ok d = true) :
    (m.broadcast send_ok group).2 = connections.filter (fun d => !(d == c)) ∧
    c ∉ (m.broadcast send_ok group).2 ∧
    (m.broadcast send_ok group).1 = m.disconnect c := by
  have hdel : connections.filter send_ok = connections.filter (fun d => !(d == c)) := by
    apply List.filter_congr
    intro x hx
    by_cases hxc : x = c
    · subst hxc
      simp [hfail]
    · simp [hok x hx hxc, hxc]
  have hdis : connections.filter (fun d => !(send_ok d)) = [c] := by
    have hcong : connections.filter (fun d => !(send_ok d))
        = connections.filter (fun d => d == c) := by
      apply List.filter_congr
      intro x hx
      by_cases hxc : x = c
      · subst hxc
        simp [hfail]
      · simp [hok x hx hxc, hxc]
    rw [hcong]
    exact nodup_filter_eq_single c connections hnd hc
  simp only [ConnectionManager.broadcast, hg]
  refine ⟨hdel, ?_, ?_⟩
  · rw [hdel]
    simp
  · rw [hdis]
    rfl

def demoManager : ConnectionManager :=
  ⟨[("all", [1, 2, 3]), ("authenticated", [2])]⟩

def failing_send : Nat → Bool := fun n => !(n == 2)

theorem broadcast_prunes_failing_connection_witness :
    (demoManager.broadcast failing_send "all").2 = [1, 3] ∧
    2 ∉ (demoManager.broadcast failing_send "all").2 ∧
    (demoManager.broadcast failing_send "all").1 = demoManager.disconnect 2 := by
  have h := broadcast_prunes_failing_connection demoManager "all" [1, 2, 3]
    failing_send 2 rfl (by decide) (by decide) rfl (by decide)
  exact ⟨h.1.trans rfl, h.2.1, h.2.2⟩

/-- C9: broadcasting to a group name that is not registered returns
normally as a no-op: the manager, and so the membership of every existing
group, is unchanged and nothing is delivered. -/
theorem broadcast_unknown_group_noop (m : ConnectionManager)
    (send_ok : Nat → Bool) (group : String)
    (hg : m.lookup_group group = none) :
    m.broadcast send_ok group = (m, []) := by
  simp [ConnectionManager.broadcast, hg]

theorem broadcast_unknown_group_noop_witness :
    demoManager.broadcast failing_send "unknown-group" = (demoManager, []) := by
  exact broadcast_unknown_group_noop demoManager failing_send "unknown-group" rfl

/-- Broadcast behaviour of the `/api/switch` endpoint, by case analysis
on its body and its two external calls. -/
theorem switch_front_spec (body : MembersField)
    (set_front : List String → Except String Unit)
    (get_fronters : Except String String) :
    (∀ v, (switch_front body set_front get_fronters).1 = .ok v →
       ∃ fr, get_fronters = .ok fr ∧
         (switch_front body set_front get_fronters).2
           = [{ type := "fronting_update", payload := fr, group := "all" }]) ∧
    ((switch_front body set_front get_fronters).1.isOk = false →
       (switch_front body set_front get_fronters).2 = []) := by
  cases body with
  | notAList => simp [switch_front, HttpOutcome.isOk]
  | absent =>
    simp only [switch_front]
    cases hsf : set_front [] with
    | error e => simp [HttpOutcome.isOk]
    | ok u =>
      cases hgf : get_fronters with
      | error e => simp [HttpOutcome.isOk]
      | ok fr => simp [HttpOutcome.isOk, broadcast_fronting_update]
  | idList ids =>
    simp only [switch_front]
    cases hsf : set_front ids with
    | error e => simp [HttpOutcome.isOk]
    | ok u =>
      cases hgf : get_fronters with
      | error e => simp [HttpOutcome.isOk]
      | ok fr => simp [HttpOutcome.isOk, broadcast_fronting_update]

/-- Broadcast behaviour of the `/api/switch_front` endpoint, by case
analysis on its body and its two external calls. -/
theorem switch_single_front_spec (member_id : Option String)
    (set_front : List String → Except String Unit)
    (get_fronters : Except String String) :
    (∀ v, (switch_single_front member_id set_front get_fronters).1 = .ok v →
       ∃ fr, get_fronters = .ok fr ∧
         (switch_single_front member_id set_front get_fronters).2
           = [{ type := "fronting_update", payload := fr, group := "all" }]) ∧
    ((switch_single_front member_id set_front get_fronters).1.isOk = false →
       (switch_single_front member_id set_front get_fronters).2 = []) := by
  by_cases ht : truthy member_id = true
  · simp only [switch_single_front, ht]
    cases hsf : set_front [member_id.getD ""] with
    | error e => simp [HttpOutcome.isOk]
    | ok u =>
      cases hgf : get_fronters with
      | error e => simp [HttpOutcome.isOk]
      | ok fr => simp [HttpOutcome.isOk, broadcast_fronting_update]
  · have ht2 : truthy member_id = false := by
      simp at ht
      simp [ht]
    simp [switch_single_front, ht2, HttpOutcome.isOk]

/-- C1: for every front-switch request that succeeds, exactly one
broadcast event of type `fronting_update` is emitted to the "all" group,
and its payload is the freshly re-fetched fronter list returned by
`get_fronters`, not the request body; when the operation fails, no
broadcast is emitted. Holds for both fronting endpoints. -/
theorem fronting_endpoints_broadcast_policy (body : MembersField)
    (member_id : Option String)
    (set_front : List String → Except String Unit)
    (get_fronters : Except String String) :
    (∀ v, (switch_front body set_front get_fronters).1 = .ok v →
       ∃ fr, get_fronters = .ok fr ∧
         (switch_front body set_front get_fronters).2
           = [{ type := "fronting_update", payload := fr, group := "all" }]) ∧
    ((switch_front body set_front get_fronters).1.isOk = false →
       (switch_front body set_front get_fronters).2 = []) ∧
    (∀ v, (switch_single_front member_id set_front get_fronters).1 = .ok v →
       ∃ fr, get_fronters = .ok fr ∧
         (switch_single_front member_id set_front get_fronters).2
           = [{ type := "fronting_update", payload := fr, group := "all" }]) ∧
    ((switch_single_front member_id set_front get_fronters).1.isOk = false →
       (switch_single_front member_id set_front get_fronters).2 = []) :=
  ⟨(switch_front_spec body set_front get_fronters).1,
   (switch_front_spec body set_front get_fronters).2,
   (switch_single_front_spec member_id set_front get_fronters).1,
   (switch_single_front_spec member_id set_front get_fronters).2⟩

theorem fronting_endpoints_broadcast_policy_witness :
    (switch_front (.idList ["m1", "m2"]) (fun _ => .ok ()) (.ok "FR")).2
      = [{ type := "fronting_update", payload := "FR", group := "all" }] ∧
    (switch_front (.idList ["m1", "m2"]) (fun _ => .error "boom") (.ok "FR")).2 = [] ∧
    (switch_single_front (some "m1") (fun _ => .ok ()) (.ok "FR")).2
      = [{ type := "fronting_update", payload := "FR", group := "all" }] := by
  have hgood := fronting_endpoints_broadcast_policy (.idList ["m1", "m2"]) (some "m1")
    (fun _ => .ok ()) (.ok "FR")
  have hbad := fronting_endpoints_broadcast_policy (.idList ["m1", "m2"]) (some "m1")
    (fun _ => .error "boom") (.ok "FR")
  obtain ⟨fr1, hfr1, hev1⟩ := hgood.1 "Front updated successfully" rfl
  obtain ⟨fr2, hfr2, hev2⟩ := hgood.2.2.1 "Front updated" rfl
  injection hfr1 with hq1
  injection hfr2 with hq2
  subst hq1
  subst hq2
  exact ⟨hev1, hbad.2.1 rfl, hev2⟩
